import Mathlib

/-!
Verification of the EcoFlow API tool (`src/ecoflow.py`).

The development shallowly embeds the Python module: JSON-like payloads become
the inductive type `JVal`, Python dicts become association lists with
last-write-wins insertion (`dictInsert` / `dictUpdate`), and the module's
functions `_flatten_object`, `_build_data_string`, `_create_signature`,
`_make_request`, `list_ecoflow_devices` and `get_ecoflow_device_info` become
the Lean functions `flatten_object`, `build_data_string`, `create_signature`,
`make_request`, `list_ecoflow_devices` and `get_ecoflow_device_info`
(Python's leading underscore is not a legal start of a Lean name, hence the
renaming).  Effects are made explicit: the clock and the UUID source become
the `timestamp` and `nonce` string parameters, and the HTTP transport
(`requests`) becomes a function argument from requests to transport results.
HMAC-SHA256 (`hmac.new(..., hashlib.sha256).hexdigest()`) is embedded
bit-for-bit over byte lists (`sha256Bytes`, `hmacSha256`, `bytesToHex`).
-/

namespace Ecoflow

/-- A JSON-like Python value: the payloads the tool flattens and signs are
built from strings, ints, booleans, lists and dicts.  A dict is carried as
its insertion-ordered association list. -/
inductive JVal where
  | s (v : String)
  | i (v : Int)
  | b (v : Bool)
  | arr (items : List JVal)
  | obj (fields : List (String × JVal))

/-- Python dict assignment `d[k] = v`: replace the value in place when the
key is present, append otherwise (insertion order is preserved). -/
def dictInsert (d : List (String × JVal)) (k : String) (v : JVal) :
    List (String × JVal) :=
  if d.any (fun p => p.1 == k) then
    d.map (fun p => if p.1 == k then (k, v) else p)
  else
    d ++ [(k, v)]

/-- Python `d.update(other)`: assign every entry of `other` in order. -/
def dictUpdate (d other : List (String × JVal)) : List (String × JVal) :=
  other.foldl (fun acc kv => dictInsert acc kv.1 kv.2) d

/-- Python `d[k]` on a dict with `k` present; the `JVal.s ""` default is
never reached when `k` is drawn from the keys of `d`. -/
def dictGet (d : List (String × JVal)) (k : String) : JVal :=
  match d.find? (fun p => p.1 == k) with
  | some p => p.2
  | none => JVal.s ""

mutual

/-- The loop body of `_flatten_object`: iterate over the remaining
`(key, value)` items of the dict being flattened, threading the `flattened`
accumulator dict. -/
def flattenFields : List (String × JVal) → String → List (String × JVal) →
    List (String × JVal)
  | [], _, flattened => flattened
  | (key, value) :: rest, parentKey, flattened =>
    flattenFields rest parentKey
      (flattenValue value
        (if parentKey = "" then key else parentKey ++ "." ++ key) flattened)

/-- One item of the `_flatten_object` loop: a dict value is flattened
recursively (from a fresh `{}`) and merged with `flattened.update(...)`, a
list value is walked element-wise, and any other value is stored at the
current path. -/
def flattenValue : JVal → String → List (String × JVal) →
    List (String × JVal)
  | JVal.obj f, propName, flattened =>
    dictUpdate flattened (flattenFields f propName [])
  | JVal.arr items, propName, flattened =>
    flattenItems items propName 0 flattened
  | v, propName, flattened => dictInsert flattened propName v

/-- The `enumerate(value)` loop of `_flatten_object`: a dict element is
flattened recursively under the indexed path `prop[i]`, every other element
(scalars, but also nested lists) is stored directly at `prop[i]`. -/
def flattenItems : List JVal → String → Nat → List (String × JVal) →
    List (String × JVal)
  | [], _, _, flattened => flattened
  | item :: rest, propName, i, flattened =>
    flattenItems rest propName (i + 1)
      (match item with
       | JVal.obj f =>
         dictUpdate flattened
           (flattenFields f (propName ++ "[" ++ toString i ++ "]") [])
       | _ =>
         dictInsert flattened (propName ++ "[" ++ toString i ++ "]") item)

end

/-- `_flatten_object(obj, parent_key)`; the module always calls it with the
default `parent_key=""` at the root. -/
def flatten_object (obj : List (String × JVal)) (parentKey : String) :
    List (String × JVal) :=
  flattenFields obj parentKey []

/-- Escape `\` and `'` for `pyRepr`'s single-quoted string form. -/
def reprEscape : List Char → String
  | [] => ""
  | c :: rest =>
    (if c = '\\' then "\\\\" else if c = '\'' then "\\'"
     else String.mk [c]) ++ reprEscape rest

mutual

/-- Python `repr` restricted to the values in scope: strings are quoted with
single quotes (escaping `\` and `'`; Python's alternate-quote and
control-character escapes are not needed by any payload considered here),
ints and booleans print naturally, lists and dicts print their elements
recursively. -/
def pyRepr : JVal → String
  | JVal.s v => "'" ++ reprEscape v.data ++ "'"
  | JVal.i n => toString n
  | JVal.b bv => if bv then "True" else "False"
  | JVal.arr items => "[" ++ pyReprList items ++ "]"
  | JVal.obj fields => "\x7b" ++ pyReprFields fields ++ "\x7d"

/-- `", ".join` of the reprs of a list's elements. -/
def pyReprList : List JVal → String
  | [] => ""
  | [x] => pyRepr x
  | x :: y :: rest => pyRepr x ++ ", " ++ pyReprList (y :: rest)

/-- `", ".join` of the `key: value` reprs of a dict's items. -/
def pyReprFields : List (String × JVal) → String
  | [] => ""
  | [kv] => "'" ++ reprEscape kv.1.data ++ "': " ++ pyRepr kv.2
  | kv :: kv2 :: rest =>
    "'" ++ reprEscape kv.1.data ++ "': " ++ pyRepr kv.2 ++ ", " ++
      pyReprFields (kv2 :: rest)

end

/-- Python `str`: the identity on strings, the natural decimal form of ints,
`True`/`False` for booleans, and `repr` for containers (in Python,
`str(list)` and `str(dict)` delegate to `repr`). -/
def pyStr : JVal → String
  | JVal.s v => v
  | JVal.i n => toString n
  | JVal.b bv => if bv then "True" else "False"
  | v => pyRepr v

/-- Python `sep.join(parts)`. -/
def joinSep (sep : String) : List String → String
  | [] => ""
  | [x] => x
  | x :: y :: rest => x ++ sep ++ joinSep sep (y :: rest)

/-- Lexicographic comparison of two codepoint sequences, the order Python
uses to compare strings: compare characters left to right by codepoint, and
a proper prefix sorts first. -/
def lexLe : List Char → List Char → Bool
  | [], _ => true
  | _ :: _, [] => false
  | a :: as, b :: bs =>
    if a.toNat < b.toNat then true
    else if a.toNat = b.toNat then lexLe as bs
    else false

/-- Python `a <= b` on strings. -/
def strLe (a b : String) : Bool :=
  lexLe a.data b.data

instance : DecidableRel (fun a b => strLe a b = true) :=
  fun a b => inferInstanceAs (Decidable (strLe a b = true))

instance : DecidableRel (fun (p q : String × JVal) => strLe p.1 q.1 = true) :=
  fun p q => inferInstanceAs (Decidable (strLe p.1 q.1 = true))

/-- Python `sorted` on strings: a stable sort by the lexicographic
(codepoint) order `strLe`; keys of a dict are pairwise distinct, so any sort
by this total order returns the same list as CPython's timsort. -/
def sortKeys (keys : List String) : List String :=
  List.insertionSort (fun a b => strLe a b = true) keys

/-- `_build_data_string(data)`: empty dict gives `""`; otherwise flatten,
sort the flattened keys, render `key=value` pairs and join with `&`. -/
def build_data_string (data : List (String × JVal)) : String :=
  if data.isEmpty then ""
  else
    let flattened := flatten_object data ""
    let sorted_keys := sortKeys (flattened.map Prod.fst)
    let parts := sorted_keys.map (fun key => key ++ "=" ++ pyStr (dictGet flattened key))
    joinSep "&" parts

/-! ### SHA-256 and HMAC over byte lists

`hashlib.sha256` and `hmac.new` from the source, embedded as pure functions
on lists of bytes (naturals below 256); 32-bit machine words are naturals
reduced modulo `2 ^ 32`. -/

/-- `2 ^ 32`, the modulus of SHA-256 word arithmetic. -/
def M32 : Nat := 4294967296

/-- Rotate a 32-bit word right by `n` bits. -/
def rotr (n x : Nat) : Nat := ((x >>> n) ||| (x <<< (32 - n))) % M32

/-- Bitwise complement of a 32-bit word (`x < 2 ^ 32`). -/
def not32 (x : Nat) : Nat := 4294967295 - x

/-- Three-way xor. -/
def xor3 (a b c : Nat) : Nat := (a ^^^ b) ^^^ c

/-- SHA-256 σ₀. -/
def ssig0 (x : Nat) : Nat := xor3 (rotr 7 x) (rotr 18 x) (x >>> 3)

/-- SHA-256 σ₁. -/
def ssig1 (x : Nat) : Nat := xor3 (rotr 17 x) (rotr 19 x) (x >>> 10)

/-- SHA-256 Σ₀. -/
def bsig0 (x : Nat) : Nat := xor3 (rotr 2 x) (rotr 13 x) (rotr 22 x)

/-- SHA-256 Σ₁. -/
def bsig1 (x : Nat) : Nat := xor3 (rotr 6 x) (rotr 11 x) (rotr 25 x)

/-- The 64 SHA-256 round constants (FIPS 180-4, written in decimal). -/
def shaK : List Nat :=
  [1116352408, 1899447441, 3049323471, 3921009573, 961987163,
   1508970993, 2453635748, 2870763221, 3624381080, 310598401,
   607225278, 1426881987, 1925078388, 2162078206, 2614888103,
   3248222580, 3835390401, 4022224774, 264347078, 604807628,
   770255983, 1249150122, 1555081692, 1996064986, 2554220882,
   2821834349, 2952996808, 3210313671, 3336571891, 3584528711,
   113926993, 338241895, 666307205, 773529912, 1294757372,
   1396182291, 1695183700, 1986661051, 2177026350, 2456956037,
   2730485921, 2820302411, 3259730800, 3345764771, 3516065817,
   3600352804, 4094571909, 275423344, 430227734, 506948616,
   659060556, 883997877, 958139571, 1322822218, 1537002063,
   1747873779, 1955562222, 2024104815, 2227730452, 2361852424,
   2428436474, 2756734187, 3204031479, 3329325298]

/-- The eight SHA-256 working variables / hash state. -/
structure Hash8 where
  a : Nat
  b : Nat
  c : Nat
  d : Nat
  e : Nat
  f : Nat
  g : Nat
  h : Nat

/-- The SHA-256 initial hash value (FIPS 180-4, written in decimal). -/
def shaH0 : Hash8 :=
  ⟨1779033703, 3144134277, 1013904242, 2773480762,
   1359893119, 2600822924, 528734635, 1541459225⟩

/-- The `k` most significant bytes of `n`, big-endian. -/
def toBytesBE : Nat → Nat → List Nat
  | 0, _ => []
  | k + 1, n => toBytesBE k (n / 256) ++ [n % 256]

/-- The `i`-th entry of a byte or word list (0 past the end). -/
def byteAt (l : List Nat) (i : Nat) : Nat := l.getD i 0

/-- The `i`-th big-endian 32-bit word of a 64-byte block. -/
def wordAt (block : List Nat) (i : Nat) : Nat :=
  byteAt block (4 * i) <<< 24 ||| byteAt block (4 * i + 1) <<< 16 |||
    byteAt block (4 * i + 2) <<< 8 ||| byteAt block (4 * i + 3)

/-- Extend the 16-word schedule prefix by `fuel` further words, each
`σ₁(w[t-2]) + w[t-7] + σ₀(w[t-15]) + w[t-16] mod 2 ^ 32`. -/
def extendW : Nat → List Nat → List Nat
  | 0, w => w
  | fuel + 1, w =>
    let len := w.length
    let nw := (ssig1 (byteAt w (len - 2)) + byteAt w (len - 7) +
      ssig0 (byteAt w (len - 15)) + byteAt w (len - 16)) % M32
    extendW fuel (w ++ [nw])

/-- The 64-word message schedule of one 64-byte block. -/
def schedule (block : List Nat) : List Nat :=
  extendW 48 ((List.range 16).map (wordAt block))

/-- One SHA-256 round with constant `kw.1` and schedule word `kw.2`. -/
def roundStep (s : Hash8) (kw : Nat × Nat) : Hash8 :=
  let S1 := bsig1 s.e
  let ch := (s.e &&& s.f) ^^^ (not32 s.e &&& s.g)
  let temp1 := (s.h + S1 + ch + kw.1 + kw.2) % M32
  let S0 := bsig0 s.a
  let maj := xor3 (s.a &&& s.b) (s.a &&& s.c) (s.b &&& s.c)
  let temp2 := (S0 + maj) % M32
  ⟨(temp1 + temp2) % M32, s.a, s.b, s.c, (s.d + temp1) % M32, s.e, s.f, s.g⟩

/-- Run the 64 rounds over the zipped constants and schedule. -/
def roundsLoop : List (Nat × Nat) → Hash8 → Hash8
  | [], s => s
  | kw :: rest, s => roundsLoop rest (roundStep s kw)

/-- Compress one 64-byte block into the running hash. -/
def compress (hv : Hash8) (block : List Nat) : Hash8 :=
  let s := roundsLoop (shaK.zip (schedule block)) hv
  ⟨(hv.a + s.a) % M32, (hv.b + s.b) % M32, (hv.c + s.c) % M32,
   (hv.d + s.d) % M32, (hv.e + s.e) % M32, (hv.f + s.f) % M32,
   (hv.g + s.g) % M32, (hv.h + s.h) % M32⟩

/-- Compress `nblocks` consecutive 64-byte blocks. -/
def processBlocks : Nat → List Nat → Hash8 → Hash8
  | 0, _, hv => hv
  | nblocks + 1, msg, hv =>
    processBlocks nblocks (msg.drop 64) (compress hv (msg.take 64))

/-- SHA-256 padding: append `0x80`, zeros to 56 mod 64, and the 8-byte
big-endian bit length. -/
def padMessage (msg : List Nat) : List Nat :=
  msg ++ [0x80] ++ List.replicate ((119 - msg.length % 64) % 64) 0 ++
    toBytesBE 8 (msg.length * 8)

/-- `hashlib.sha256(msg).digest()`: the 32-byte SHA-256 digest. -/
def sha256Bytes (msg : List Nat) : List Nat :=
  let padded := padMessage msg
  let hv := processBlocks (padded.length / 64) padded shaH0
  toBytesBE 4 hv.a ++ toBytesBE 4 hv.b ++ toBytesBE 4 hv.c ++
    toBytesBE 4 hv.d ++ toBytesBE 4 hv.e ++ toBytesBE 4 hv.f ++
    toBytesBE 4 hv.g ++ toBytesBE 4 hv.h

/-- A nibble as a lowercase hex digit. -/
def hexDigit (n : Nat) : Char :=
  if n < 10 then Char.ofNat (48 + n) else Char.ofNat (87 + n)

/-- One byte as two lowercase hex digits, prepended to `acc`. -/
def hexByte (bv : Nat) (acc : List Char) : List Char :=
  hexDigit (bv / 16 % 16) :: hexDigit (bv % 16) :: acc

/-- `.hexdigest()`: a byte list as a lowercase hex string. -/
def bytesToHex (bs : List Nat) : String :=
  String.mk (bs.foldr hexByte [])

/-- UTF-8 encoding of one character (`str.encode("utf-8")` acts
per-codepoint). -/
def utf8Bytes (c : Char) : List Nat :=
  let n := c.toNat
  if n < 0x80 then [n]
  else if n < 0x800 then
    [0xC0 ||| (n >>> 6), 0x80 ||| (n &&& 0x3F)]
  else if n < 0x10000 then
    [0xE0 ||| (n >>> 12), 0x80 ||| ((n >>> 6) &&& 0x3F), 0x80 ||| (n &&& 0x3F)]
  else
    [0xF0 ||| (n >>> 18), 0x80 ||| ((n >>> 12) &&& 0x3F),
     0x80 ||| ((n >>> 6) &&& 0x3F), 0x80 ||| (n &&& 0x3F)]

/-- `s.encode("utf-8")` as a byte list. -/
def strBytes (s : String) : List Nat :=
  (s.data.map utf8Bytes).flatten

/-- `hmac.new(key, msg, hashlib.sha256).digest()`: keys longer than the
64-byte block are first hashed, the key is zero-padded to 64 bytes, and the
digest is `SHA256(opad ⊕ key ++ SHA256(ipad ⊕ key ++ msg))`. -/
def hmacSha256 (key msg : List Nat) : List Nat :=
  let k0 := if 64 < key.length then sha256Bytes key else key
  let kpad := k0 ++ List.replicate (64 - k0.length) 0
  let ipadKey := kpad.map (fun bv => bv ^^^ 0x36)
  let opadKey := kpad.map (fun bv => bv ^^^ 0x5c)
  sha256Bytes (opadKey ++ sha256Bytes (ipadKey ++ msg))

/-- `hmac.new(secret.encode("utf-8"), text.encode("utf-8"),
hashlib.sha256).hexdigest()`. -/
def hmacSha256Hex (key msg : String) : String :=
  bytesToHex (hmacSha256 (strBytes key) (strBytes msg))

/-! ### The signer -/

/-- `_create_signature(payload)`.  The two effects of the source —
`str(int(datetime.now().timestamp() * 1000))` and `str(uuid.uuid4())` — are
passed in as the `timestamp` and `nonce` strings; `access_key` and
`secret_key` are the credential properties read inside the function.  The
`payload or \x7b\x7d` default of the source maps `none` (Python `None`) and
the empty dict alike to the empty dict.  Returns the Python dict literal of
the source as its association list: exactly the four keys `accessKey`,
`timestamp`, `nonce` and `sign`. -/
def create_signature (access_key secret_key timestamp nonce : String)
    (payload : Option (List (String × JVal))) : List (String × String) :=
  let data_string := build_data_string (payload.getD [])
  let sign_string :=
    if data_string = "" then
      "accessKey=" ++ access_key ++ "&nonce=" ++ nonce ++ "&timestamp=" ++ timestamp
    else
      data_string ++ "&accessKey=" ++ access_key ++ "&nonce=" ++ nonce ++
        "&timestamp=" ++ timestamp
  let signature := hmacSha256Hex secret_key sign_string
  [("accessKey", access_key), ("timestamp", timestamp), ("nonce", nonce),
   ("sign", signature)]

/-- Python `d[k]` on a string-valued dict (`auth_params` lookups); keys are
always present at the call sites. -/
def dictGetStr (d : List (String × String)) (k : String) : String :=
  match d.find? (fun p => p.1 == k) with
  | some p => p.2
  | none => ""

/-! ### The request dispatcher -/

/-- One outbound HTTP request as handed to `requests.get/put/post`: method,
url, header dict, and the value of the `json=` keyword (`none` both for GET,
which passes no `json=`, and for `json=None`, which `requests` sends with no
body). -/
structure HttpRequest where
  method : String
  url : String
  headers : List (String × String)
  jsonBody : Option (List (String × JVal))

/-- What one `requests` call does, as seen through the `try` block of
`_make_request`: either some `requests.RequestException` is raised while
sending (DNS failure, refused connection, timeout), carrying `str(e)`, or a
response arrives with a status code, a reason phrase and a body whose JSON
decoding either succeeds or raises (in current `requests`,
`response.json()` raises a `JSONDecodeError` that is a
`RequestException`). -/
inductive TransportResult where
  | exn (msg : String)
  | response (status : Nat) (reason : String) (body : Except String JVal)

/-- `str(e)` of the `HTTPError` that `response.raise_for_status()` raises
for a 4xx or 5xx status. -/
def http_error_msg (status : Nat) (reason url : String) : String :=
  if status < 500 then
    toString status ++ " Client Error: " ++ reason ++ " for url: " ++ url
  else
    toString status ++ " Server Error: " ++ reason ++ " for url: " ++ url

/-- The tail of the `try` block of `_make_request` for one issued request:
`raise_for_status()` (which raises exactly for `400 <= status < 600`), then
`response.json()`, with every `RequestException` caught and wrapped into
the `\x7b"error": ...\x7d` dict.  Also returns the one-element list of
issued requests, so that theorems can count network calls. -/
def send_and_handle (transport : HttpRequest → TransportResult)
    (req : HttpRequest) : JVal × List HttpRequest :=
  match transport req with
  | TransportResult.exn msg =>
    (JVal.obj [("error", JVal.s ("API request failed: " ++ msg))], [req])
  | TransportResult.response status reason body =>
    if 400 ≤ status ∧ status < 600 then
      (JVal.obj [("error", JVal.s ("API request failed: " ++
        http_error_msg status reason req.url))], [req])
    else
      match body with
      | Except.error msg =>
        (JVal.obj [("error", JVal.s ("API request failed: " ++ msg))], [req])
      | Except.ok v => (v, [req])

/-- The configuration error `_make_request` returns when a credential is
missing. -/
def credsErrorMsg : String :=
  "EcoFlow API credentials not configured. Please set ECOFLOW_ACCESS_KEY and ECOFLOW_SECRET_KEY in the tool's Valves settings."

/-- `_make_request(method, url, payload)`.  Credentials, the clock/UUID
strings and the transport are explicit parameters; the result is the dict
the function returns (either the parsed JSON body or an `error` dict)
paired with the list of HTTP calls issued (empty or a singleton). -/
def make_request (access_key secret_key : String)
    (transport : HttpRequest → TransportResult) (timestamp nonce : String)
    (method url : String) (payload : Option (List (String × JVal))) :
    JVal × List HttpRequest :=
  if access_key = "" ∨ secret_key = "" then
    (JVal.obj [("error", JVal.s credsErrorMsg)], [])
  else
    let auth_params := create_signature access_key secret_key timestamp nonce payload
    let headers :=
      [("accessKey", dictGetStr auth_params "accessKey"),
       ("timestamp", dictGetStr auth_params "timestamp"),
       ("nonce", dictGetStr auth_params "nonce"),
       ("sign", dictGetStr auth_params "sign"),
       ("Content-Type", "application/json;charset=UTF-8")]
    if method = "GET" then
      send_and_handle transport ⟨method, url, headers, none⟩
    else if method = "PUT" then
      send_and_handle transport ⟨method, url, headers, payload⟩
    else if method = "POST" then
      send_and_handle transport ⟨method, url, headers, payload⟩
    else
      (JVal.obj [("error", JVal.s ("Unsupported HTTP method: " ++ method))], [])

/-! ### The caller-facing operations -/

/-- Does `hay` start with `needle`? -/
def startsWithCh : List Char → List Char → Bool
  | [], _ => true
  | _ :: _, [] => false
  | a :: as, b :: bs => a == b && startsWithCh as bs

/-- Does `needle` occur as a contiguous run of `hay`? -/
def containsSub : List Char → List Char → Bool
  | needle, [] => needle.isEmpty
  | needle, c :: t => startsWithCh needle (c :: t) || containsSub needle t

/-- Python `needle in haystack` as used on a decoded JSON value: key
membership for dicts, element equality for lists (a string equals only an
equal string), substring search for strings.  On an int or bool Python
would raise `TypeError`; that point is unreachable for the dict results
these operations test. -/
def pyIn (k : String) : JVal → Bool
  | JVal.obj fields => fields.any (fun p => p.1 == k)
  | JVal.arr items =>
    items.any (fun v => match v with
      | JVal.s t => t == k
      | _ => false)
  | JVal.s t => containsSub k.data t.data
  | _ => false

/-- `result[k]` on a decoded JSON dict; the guards at the call sites ensure
the value is a dict with `k` present, so the default is unreachable. -/
def pyGet (v : JVal) (k : String) : JVal :=
  match v with
  | JVal.obj fields => dictGet fields k
  | _ => JVal.s ""

/-- Python `d.get(k)` on a device record: `some` value when the key is
present, `none` (Python `None`) otherwise.  A non-dict `d` would raise
`AttributeError` in Python; unreachable for the records formatted here. -/
def pyGetOpt (v : JVal) (k : String) : Option JVal :=
  match v with
  | JVal.obj fields => (fields.find? (fun p => p.1 == k)).map Prod.snd
  | _ => none

/-- `device.get(k, "N/A")`. -/
def pyGetD (v : JVal) (k : String) (dflt : JVal) : JVal :=
  (pyGetOpt v k).getD dflt

/-- `device.get("online") == 1`: in Python `1 == 1` and `True == 1` hold,
`None`, other numbers, strings and containers compare unequal to `1`. -/
def pyEqOne : Option JVal → Bool
  | some (JVal.i 1) => true
  | some (JVal.b true) => true
  | _ => false

/-- Python truth value of a decoded JSON value (`if not data`): empty
containers, the empty string, `0` and `False` are falsy. -/
def pyFalsy : JVal → Bool
  | JVal.s v => v == ""
  | JVal.i n => n == 0
  | JVal.b bv => !bv
  | JVal.arr items => items.isEmpty
  | JVal.obj fields => fields.isEmpty

/-- `.items()` of a decoded JSON dict (a non-dict would raise in Python;
unreachable under the `if not data` guard for the flat telemetry records
this tool formats). -/
def objFields : JVal → List (String × JVal)
  | JVal.obj fields => fields
  | _ => []

/-- Is the value a decoded JSON list (`isinstance(result["data"], list)`)? -/
def isArr : JVal → Bool
  | JVal.arr _ => true
  | _ => false

/-- The elements of a decoded JSON list. -/
def arrItems : JVal → List JVal
  | JVal.arr items => items
  | _ => []

/-- One iteration of the device-listing loop of `list_ecoflow_devices`. -/
def formatDevice (device : JVal) : String :=
  let sn := pyGetD device "sn" (JVal.s "N/A")
  let name := pyGetD device "deviceName" (JVal.s "N/A")
  let online := if pyEqOne (pyGetOpt device "online") then "Online" else "Offline"
  let product := pyGetD device "productName" (JVal.s "N/A")
  "• " ++ pyStr name ++ " (" ++ pyStr product ++ ")\n" ++
    "  Serial Number: " ++ pyStr sn ++ "\n" ++
    "  Status: " ++ online ++ "\n\n"

/-- `json.dumps` string escaping for the characters that occur in this
development (backslash, double quote and the common control characters);
the `\uXXXX` escapes of other control and non-ASCII characters are not
exercised by any claim. -/
def jsonEscape : List Char → String
  | [] => ""
  | c :: rest =>
    (if c = '"' then "\\\"" else if c = '\\' then "\\\\"
     else if c = '\n' then "\\n" else if c = '\t' then "\\t"
     else if c = '\r' then "\\r" else String.mk [c]) ++ jsonEscape rest

/-- `"  " * lvl`, the indentation of `json.dumps(..., indent=2)`. -/
def indentOf (lvl : Nat) : String :=
  String.mk (List.replicate (2 * lvl) ' ')

mutual

/-- `json.dumps(v, indent=2)` at nesting level `lvl`. -/
def jsonDumpsLvl : JVal → Nat → String
  | JVal.s v, _ => "\"" ++ jsonEscape v.data ++ "\""
  | JVal.i n, _ => toString n
  | JVal.b bv, _ => if bv then "true" else "false"
  | JVal.arr [], _ => "[]"
  | JVal.arr (x :: rest), lvl =>
    "[\n" ++ jsonDumpsItems (x :: rest) (lvl + 1) ++ "\n" ++ indentOf lvl ++ "]"
  | JVal.obj [], _ => "\x7b\x7d"
  | JVal.obj (kv :: rest), lvl =>
    "\x7b\n" ++ jsonDumpsFields (kv :: rest) (lvl + 1) ++ "\n" ++
      indentOf lvl ++ "\x7d"

/-- The `,\n`-separated, indented renderings of a list's elements. -/
def jsonDumpsItems : List JVal → Nat → String
  | [], _ => ""
  | [x], lvl => indentOf lvl ++ jsonDumpsLvl x lvl
  | x :: y :: rest, lvl =>
    indentOf lvl ++ jsonDumpsLvl x lvl ++ ",\n" ++ jsonDumpsItems (y :: rest) lvl

/-- The `,\n`-separated, indented renderings of a dict's items. -/
def jsonDumpsFields : List (String × JVal) → Nat → String
  | [], _ => ""
  | [kv], lvl =>
    indentOf lvl ++ "\"" ++ jsonEscape kv.1.data ++ "\": " ++ jsonDumpsLvl kv.2 lvl
  | kv :: kv2 :: rest, lvl =>
    indentOf lvl ++ "\"" ++ jsonEscape kv.1.data ++ "\": " ++
      jsonDumpsLvl kv.2 lvl ++ ",\n" ++ jsonDumpsFields (kv2 :: rest) lvl

end

/-- `json.dumps(result, indent=2)` of the unexpected-format branches. -/
def json_dumps_indent2 (v : JVal) : String := jsonDumpsLvl v 0

/-- `list_ecoflow_devices()`.  The valves (`api_host`, `access_key`,
`secret_key`), the clock/UUID strings and the transport are explicit
parameters.  The `return result["error"]` branch returns the error value
itself; it is rendered with `pyStr`, the identity on the string messages
produced here. -/
def list_ecoflow_devices (api_host access_key secret_key : String)
    (transport : HttpRequest → TransportResult) (timestamp nonce : String) :
    String :=
  let url := api_host ++ "/iot-open/sign/device/list"
  let result := (make_request access_key secret_key transport timestamp nonce
    "GET" url none).1
  if pyIn "error" result then pyStr (pyGet result "error")
  else if pyIn "data" result && isArr (pyGet result "data") then
    let devices := arrItems (pyGet result "data")
    if devices.isEmpty then "No devices found in your EcoFlow account."
    else
      "Found " ++ toString devices.length ++ " EcoFlow device(s):\n\n" ++
        String.join (devices.map formatDevice)
  else
    "Unexpected response format: " ++ json_dumps_indent2 result

/-- The sort `sorted(data.items())` of the telemetry loop: dict keys are
pairwise distinct, so Python's tuple comparison orders by key alone. -/
def sortItems (items : List (String × JVal)) : List (String × JVal) :=
  List.insertionSort (fun p q => strLe p.1 q.1 = true) items

/-- `get_ecoflow_device_info(serial_number)`, parameters as for
`list_ecoflow_devices`. -/
def get_ecoflow_device_info (api_host access_key secret_key : String)
    (transport : HttpRequest → TransportResult) (timestamp nonce : String)
    (serial_number : String) : String :=
  if serial_number = "" then
    "Error: Serial number is required. Use list_ecoflow_devices to get device serial numbers."
  else
    let url := api_host ++ "/iot-open/sign/device/quota/all?sn=" ++ serial_number
    let result := (make_request access_key secret_key transport timestamp nonce
      "GET" url none).1
    if pyIn "error" result then pyStr (pyGet result "error")
    else if pyIn "data" result then
      let data := pyGet result "data"
      if pyFalsy data then
        "No data available for device " ++ serial_number ++
          ". The device may be offline or not supported."
      else
        "Device Information for " ++ serial_number ++ ":\n\n" ++
          String.join ((sortItems (objFields data)).map
            (fun kv => "  " ++ kv.1 ++ ": " ++ pyStr kv.2 ++ "\n"))
    else
      "Unexpected response format: " ++ json_dumps_indent2 result

/-! ### Helper lemmas -/

/-- `lexLe` is total. -/
theorem lexLe_total : ∀ a b, lexLe a b = true ∨ lexLe b a = true := by
  intro a
  induction a with
  | nil => intro b; left; rfl
  | cons x xs ih =>
    intro b
    cases b with
    | nil => right; rfl
    | cons y ys =>
      simp only [lexLe]
      rcases Nat.lt_trichotomy x.toNat y.toNat with h | h | h
      · left; simp [h]
      · rcases ih ys with h2 | h2
        · left; simp [h, h2, Nat.lt_irrefl]
        · right; simp [h.symm, Nat.lt_irrefl, h2]
      · right; simp [h]

/-- `lexLe` is transitive. -/
theorem lexLe_trans : ∀ a b c, lexLe a b = true → lexLe b c = true →
    lexLe a c = true := by
  intro a
  induction a with
  | nil => intro b c _ _; rfl
  | cons x xs ih =>
    intro b c hab hbc
    cases b with
    | nil => simp [lexLe] at hab
    | cons y ys =>
      cases c with
      | nil => simp [lexLe] at hbc
      | cons z zs =>
        simp only [lexLe] at hab hbc ⊢
        split_ifs at hab hbc ⊢ with h1 h2 h3 h4 h5 h6 <;>
          first
          | rfl
          | omega
          | (exact ih ys zs hab hbc)

instance : IsTotal String (fun a b => strLe a b = true) :=
  ⟨fun a b => lexLe_total a.data b.data⟩

instance : IsTrans String (fun a b => strLe a b = true) :=
  ⟨fun a b c => lexLe_trans a.data b.data c.data⟩

/-- Is a character a lowercase hex digit (`0`-`9` or `a`-`f`)? -/
def isLowerHex (c : Char) : Bool :=
  (48 ≤ c.toNat && c.toNat ≤ 57) || (97 ≤ c.toNat && c.toNat ≤ 102)

/-- `toBytesBE k n` has exactly `k` bytes. -/
theorem toBytesBE_length (k : Nat) : ∀ n, (toBytesBE k n).length = k := by
  induction k with
  | zero => intro n; rfl
  | succ k ih => intro n; simp [toBytesBE, ih]

/-- A SHA-256 digest has 32 bytes. -/
theorem sha256Bytes_length (msg : List Nat) : (sha256Bytes msg).length = 32 := by
  simp [sha256Bytes, toBytesBE_length]

/-- An HMAC-SHA256 digest has 32 bytes. -/
theorem hmacSha256_length (key msg : List Nat) :
    (hmacSha256 key msg).length = 32 := by
  simp [hmacSha256, sha256Bytes_length]

/-- Hex encoding yields two characters per byte. -/
theorem foldr_hexByte_length (bs : List Nat) :
    (bs.foldr hexByte []).length = 2 * bs.length := by
  induction bs with
  | nil => rfl
  | cons b rest ih => simp [hexByte, ih]; omega

/-- The hex string of a byte list has twice its length. -/
theorem bytesToHex_length (bs : List Nat) :
    (bytesToHex bs).length = 2 * bs.length := by
  simp [bytesToHex, String.length, foldr_hexByte_length]

/-- `hexDigit` of a nibble is a lowercase hex digit. -/
theorem hexDigit_lower : ∀ n < 16, isLowerHex (hexDigit n) = true := by decide

/-- Every character of a hex encoding is a lowercase hex digit. -/
theorem bytesToHex_all_hex (bs : List Nat) :
    (bytesToHex bs).data.all isLowerHex = true := by
  simp only [bytesToHex]
  induction bs with
  | nil => rfl
  | cons b rest ih =>
    simp only [List.foldr_cons, hexByte, List.all_cons, ih, Bool.and_true]
    rw [hexDigit_lower _ (Nat.mod_lt _ (by norm_num)),
      hexDigit_lower _ (Nat.mod_lt _ (by norm_num))]
    rfl

/-- An HMAC-SHA256 hex digest has 64 characters. -/
theorem hmacSha256Hex_length (key msg : String) :
    (hmacSha256Hex key msg).length = 64 := by
  simp [hmacSha256Hex, bytesToHex_length, hmacSha256_length]

/-- The issued-request component of `send_and_handle` is always the
singleton of the request it sent. -/
theorem send_and_handle_calls (tr : HttpRequest → TransportResult)
    (req : HttpRequest) : (send_and_handle tr req).2 = [req] := by
  unfold send_and_handle
  cases tr req with
  | exn msg => rfl
  | response st rs body =>
    dsimp only
    split
    · rfl
    · cases body <;> rfl

/-- A transport exception is wrapped into the `error` dict. -/
theorem sah_exn (tr : HttpRequest → TransportResult) (req : HttpRequest)
    (msg : String) (h : tr req = TransportResult.exn msg) :
    (send_and_handle tr req).1 =
      JVal.obj [("error", JVal.s ("API request failed: " ++ msg))] := by
  unfold send_and_handle
  rw [h]

/-- A 4xx/5xx status is wrapped into the `error` dict via
`raise_for_status`. -/
theorem sah_http (tr : HttpRequest → TransportResult) (req : HttpRequest)
    (st : Nat) (rs : String) (body : Except String JVal)
    (h : tr req = TransportResult.response st rs body)
    (h4 : 400 ≤ st) (h6 : st < 600) :
    (send_and_handle tr req).1 =
      JVal.obj [("error", JVal.s ("API request failed: " ++
        http_error_msg st rs req.url))] := by
  unfold send_and_handle
  rw [h]
  dsimp only
  rw [if_pos ⟨h4, h6⟩]

/-- A JSON-decoding failure of a non-error response is wrapped into the
`error` dict. -/
theorem sah_json_err (tr : HttpRequest → TransportResult) (req : HttpRequest)
    (st : Nat) (rs : String) (msg : String)
    (h : tr req = TransportResult.response st rs (Except.error msg))
    (hn : ¬(400 ≤ st ∧ st < 600)) :
    (send_and_handle tr req).1 =
      JVal.obj [("error", JVal.s ("API request failed: " ++ msg))] := by
  unfold send_and_handle
  rw [h]
  dsimp only
  rw [if_neg hn]

/-- A decodable non-error response is returned as its parsed body. -/
theorem sah_ok (tr : HttpRequest → TransportResult) (req : HttpRequest)
    (st : Nat) (rs : String) (v : JVal)
    (h : tr req = TransportResult.response st rs (Except.ok v))
    (hn : ¬(400 ≤ st ∧ st < 600)) :
    (send_and_handle tr req).1 = v := by
  unfold send_and_handle
  rw [h]
  dsimp only
  rw [if_neg hn]

/-- `make_request` takes exactly one of three paths: the configuration
error (a credential missing), the unsupported-method error, or a single
dispatched request handled by `send_and_handle`. -/
theorem make_request_cases (ak sk : String) (tr : HttpRequest → TransportResult)
    (ts n m url : String) (p : Option (List (String × JVal))) :
    ((ak = "" ∨ sk = "") ∧ make_request ak sk tr ts n m url p =
      (JVal.obj [("error", JVal.s credsErrorMsg)], [])) ∨
    (¬(ak = "" ∨ sk = "") ∧ (m ≠ "GET" ∧ m ≠ "PUT" ∧ m ≠ "POST") ∧
      make_request ak sk tr ts n m url p =
        (JVal.obj [("error", JVal.s ("Unsupported HTTP method: " ++ m))], [])) ∨
    (¬(ak = "" ∨ sk = "") ∧ (m = "GET" ∨ m = "PUT" ∨ m = "POST") ∧
      ∃ req, req.method = m ∧ req.url = url ∧
      make_request ak sk tr ts n m url p = send_and_handle tr req) := by
  by_cases hc : ak = "" ∨ sk = ""
  · left
    exact ⟨hc, by unfold make_request; rw [if_pos hc]⟩
  · right
    by_cases hg : m = "GET"
    · right
      refine ⟨hc, Or.inl hg,
        ⟨m, url,
         [("accessKey", dictGetStr (create_signature ak sk ts n p) "accessKey"),
          ("timestamp", dictGetStr (create_signature ak sk ts n p) "timestamp"),
          ("nonce", dictGetStr (create_signature ak sk ts n p) "nonce"),
          ("sign", dictGetStr (create_signature ak sk ts n p) "sign"),
          ("Content-Type", "application/json;charset=UTF-8")], none⟩,
        rfl, rfl, ?_⟩
      unfold make_request
      rw [if_neg hc]
      dsimp only
      rw [if_pos hg]
    · by_cases hp : m = "PUT"
      · right
        refine ⟨hc, Or.inr (Or.inl hp),
          ⟨m, url,
           [("accessKey", dictGetStr (create_signature ak sk ts n p) "accessKey"),
            ("timestamp", dictGetStr (create_signature ak sk ts n p) "timestamp"),
            ("nonce", dictGetStr (create_signature ak sk ts n p) "nonce"),
            ("sign", dictGetStr (create_signature ak sk ts n p) "sign"),
            ("Content-Type", "application/json;charset=UTF-8")], p⟩,
          rfl, rfl, ?_⟩
        unfold make_request
        rw [if_neg hc]
        dsimp only
        rw [if_neg hg, if_pos hp]
      · by_cases hq : m = "POST"
        · right
          refine ⟨hc, Or.inr (Or.inr hq),
            ⟨m, url,
             [("accessKey", dictGetStr (create_signature ak sk ts n p) "accessKey"),
              ("timestamp", dictGetStr (create_signature ak sk ts n p) "timestamp"),
              ("nonce", dictGetStr (create_signature ak sk ts n p) "nonce"),
              ("sign", dictGetStr (create_signature ak sk ts n p) "sign"),
              ("Content-Type", "application/json;charset=UTF-8")], p⟩,
            rfl, rfl, ?_⟩
          unfold make_request
          rw [if_neg hc]
          dsimp only
          rw [if_neg hg, if_neg hp, if_pos hq]
        · left
          refine ⟨hc, ⟨hg, hp, hq⟩, ?_⟩
          unfold make_request
          rw [if_neg hc]
          dsimp only
          rw [if_neg hg, if_neg hp, if_neg hq]

/-- `startsWithCh` is reflexive. -/
theorem startsWithCh_refl : ∀ l, startsWithCh l l = true := by
  intro l
  induction l with
  | nil => rfl
  | cons c t ih => simp [startsWithCh, ih]

/-- A string occurs in anything it is a suffix of. -/
theorem containsSub_suffix : ∀ p s, containsSub s (p ++ s) = true := by
  intro p
  induction p with
  | nil =>
    intro s
    cases s with
    | nil => rfl
    | cons c t => simp [containsSub, startsWithCh_refl]
  | cons c t ih =>
    intro s
    simp [containsSub, ih s]

/-! ### The claims -/

/-- C1: for every payload, access key and secret key (and every timestamp
and nonce, the two generated inputs), `_create_signature` builds the
string-to-sign as `{canonical}&accessKey={accessKey}&nonce={nonce}&timestamp=
{timestamp}` when the canonical string is non-empty and as
`accessKey={accessKey}&nonce={nonce}&timestamp={timestamp}` when it is
empty, and the returned signature is the HMAC-SHA256 of that string keyed by
the secret key (both UTF-8 encoded), hex-encoded lowercase, hence a
64-character lowercase hex string; the result contains exactly the four
fields `accessKey`, `timestamp`, `nonce` and `sign`. -/
theorem C1_create_signature_spec (access_key secret_key timestamp nonce : String)
    (payload : Option (List (String × JVal))) :
    create_signature access_key secret_key timestamp nonce payload =
      [("accessKey", access_key), ("timestamp", timestamp), ("nonce", nonce),
       ("sign", hmacSha256Hex secret_key
         (if build_data_string (payload.getD []) = "" then
            "accessKey=" ++ access_key ++ "&nonce=" ++ nonce ++ "&timestamp=" ++
              timestamp
          else
            build_data_string (payload.getD []) ++ "&accessKey=" ++ access_key ++
              "&nonce=" ++ nonce ++ "&timestamp=" ++ timestamp))] ∧
    (create_signature access_key secret_key timestamp nonce payload).map
      Prod.fst = ["accessKey", "timestamp", "nonce", "sign"] ∧
    (dictGetStr (create_signature access_key secret_key timestamp nonce payload)
      "sign").length = 64 ∧
    (dictGetStr (create_signature access_key secret_key timestamp nonce payload)
      "sign").data.all isLowerHex = true := by
  have hs : dictGetStr (create_signature access_key secret_key timestamp nonce
      payload) "sign" = hmacSha256Hex secret_key
        (if build_data_string (payload.getD []) = "" then
          "accessKey=" ++ access_key ++ "&nonce=" ++ nonce ++ "&timestamp=" ++
            timestamp
         else
          build_data_string (payload.getD []) ++ "&accessKey=" ++ access_key ++
            "&nonce=" ++ nonce ++ "&timestamp=" ++ timestamp) := by
    simp [create_signature, dictGetStr, List.find?]
  refine ⟨rfl, by simp [create_signature], ?_, ?_⟩
  · rw [hs, hmacSha256Hex_length]
  · rw [hs]
    exact bytesToHex_all_hex _

/-- C2: a payload whose flattened mapping is empty canonicalizes to the
empty string; in general `_build_data_string` renders each flattened entry
as `key=value` with the value's `str()` form, sorts the keys in
lexicographic codepoint order and joins the parts with `&` (the sorted key
list is pairwise `strLe`-ordered and a permutation of the flattened
keys). -/
theorem C2_build_data_string_spec (data : List (String × JVal)) :
    (flatten_object data "" = [] → build_data_string data = "") ∧
    build_data_string data =
      joinSep "&" ((sortKeys ((flatten_object data "").map Prod.fst)).map
        (fun key => key ++ "=" ++ pyStr (dictGet (flatten_object data "") key))) ∧
    (sortKeys ((flatten_object data "").map Prod.fst)).Pairwise
      (fun a b => strLe a b = true) ∧
    (sortKeys ((flatten_object data "").map Prod.fst)).Perm
      ((flatten_object data "").map Prod.fst) := by
  refine ⟨?_, ?_, ?_, ?_⟩
  · intro h
    cases data with
    | nil => rfl
    | cons kv rest =>
      simp [build_data_string, h, sortKeys, List.insertionSort, joinSep]
  · cases data with
    | nil =>
      have h : flatten_object ([] : List (String × JVal)) "" = [] := by
        simp [flatten_object, flattenFields]
      simp [build_data_string, h, sortKeys, List.insertionSort, joinSep]
    | cons kv rest => simp [build_data_string]
  · exact List.sorted_insertionSort (fun a b => strLe a b = true) _
  · exact List.perm_insertionSort (fun a b => strLe a b = true) _

/-- C2 witness: the payload `{"a": {}}` flattens to the empty mapping, and
the claim then gives the empty canonical string. -/
theorem C2_witness :
    flatten_object [("a", JVal.obj [])] "" = [] ∧
    build_data_string [("a", JVal.obj [])] = "" :=
  ⟨by simp [flatten_object, flattenFields, flattenValue, dictUpdate],
   (C2_build_data_string_spec [("a", JVal.obj [])]).1
     (by simp [flatten_object, flattenFields, flattenValue, dictUpdate])⟩

/-- C3 counterexample: the claim says every non-scalar sequence element —
nested sequences included — is recursed into, but on `{"a": [[1]]}` the
code stores the inner list `[1]` itself under `a[0]` and does not produce
the recursed mapping `{"a[0][0]": 1}`. -/
theorem C3_counterexample :
    flatten_object [("a", JVal.arr [JVal.arr [JVal.i 1]])] "" =
      [("a[0]", JVal.arr [JVal.i 1])] ∧
    flatten_object [("a", JVal.arr [JVal.arr [JVal.i 1]])] "" ≠
      [("a[0][0]", JVal.i 1)] := by
  have h0 : flatten_object [("a", JVal.arr [JVal.arr [JVal.i 1]])] "" =
      [("a[0]", JVal.arr [JVal.i 1])] := by
    simp [flatten_object, flattenFields, flattenValue, flattenItems,
      dictUpdate, dictInsert]
    rfl
  refine ⟨h0, ?_⟩
  rw [h0]
  simp

/-- C3 (amended): for a sequence value the flattener walks the elements
with the key path extended by `[<index>]`; a mapping element is recursed
into further, while every other element — scalars and nested sequences
alike — is stored directly at its indexed path (illustrated on
`{"a": [[1], 2]}`). -/
theorem C3_amended (prop : String) (i : Nat)
    (f : List (String × JVal)) (rest : List JVal)
    (item : JVal) (fl : List (String × JVal))
    (hnd : ∀ g, item ≠ JVal.obj g) :
    flattenItems (JVal.obj f :: rest) prop i fl =
      flattenItems rest prop (i + 1)
        (dictUpdate fl (flattenFields f (prop ++ "[" ++ toString i ++ "]") [])) ∧
    flattenItems (item :: rest) prop i fl =
      flattenItems rest prop (i + 1)
        (dictInsert fl (prop ++ "[" ++ toString i ++ "]") item) ∧
    flatten_object [("a", JVal.arr [JVal.arr [JVal.i 1], JVal.i 2])] "" =
      [("a[0]", JVal.arr [JVal.i 1]), ("a[1]", JVal.i 2)] := by
  refine ⟨by simp [flattenItems], ?_, ?_⟩
  · cases item with
    | obj g => exact absurd rfl (hnd g)
    | s v => simp [flattenItems]
    | i n => simp [flattenItems]
    | b bv => simp [flattenItems]
    | arr its => simp [flattenItems]
  · simp [flatten_object, flattenFields, flattenValue, flattenItems,
      dictUpdate, dictInsert]
    rfl

/-- C3 witness: the amended statement at the non-mapping element `[1]`. -/
theorem C3_amended_witness :
    (∀ g, JVal.arr [JVal.i 1] ≠ JVal.obj g) ∧
    (flattenItems (JVal.obj [("b", JVal.i 9)] :: []) "p" 0 [] =
      flattenItems [] "p" 1
        (dictUpdate []
          (flattenFields [("b", JVal.i 9)] ("p" ++ "[" ++ toString 0 ++ "]") [])) ∧
    flattenItems (JVal.arr [JVal.i 1] :: []) "p" 0 [] =
      flattenItems [] "p" 1
        (dictInsert [] ("p" ++ "[" ++ toString 0 ++ "]") (JVal.arr [JVal.i 1])) ∧
    flatten_object [("a", JVal.arr [JVal.arr [JVal.i 1], JVal.i 2])] "" =
      [("a[0]", JVal.arr [JVal.i 1]), ("a[1]", JVal.i 2)]) :=
  ⟨fun g h => JVal.noConfusion h,
   C3_amended "p" 0 [("b", JVal.i 9)] [] (JVal.arr [JVal.i 1]) []
     (fun g h => JVal.noConfusion h)⟩

/-- C4: `_flatten_object` maps the empty mapping to the empty mapping,
`{"a":{"b":1}}` to `{"a.b":1}`, `{"a":[1,2]}` to `{"a[0]":1,"a[1]":2}` and
`{"a":[{"b":1}]}` to `{"a[0].b":1}`, with top-level keys stored
unprefixed. -/
theorem C4_flatten_examples :
    flatten_object [] "" = [] ∧
    flatten_object [("a", JVal.obj [("b", JVal.i 1)])] "" = [("a.b", JVal.i 1)] ∧
    flatten_object [("a", JVal.arr [JVal.i 1, JVal.i 2])] "" =
      [("a[0]", JVal.i 1), ("a[1]", JVal.i 2)] ∧
    flatten_object [("a", JVal.arr [JVal.obj [("b", JVal.i 1)]])] "" =
      [("a[0].b", JVal.i 1)] := by
  refine ⟨?_, ?_, ?_, ?_⟩ <;>
    simp [flatten_object, flattenFields, flattenValue, flattenItems,
      dictUpdate, dictInsert] <;> rfl

/-- C5: with a missing or empty access key or secret key, `_make_request`
returns the configuration-error dict for every method, url, payload,
timestamp, nonce and transport — in particular it issues no network call
and its output does not depend on the signer's inputs. -/
theorem C5_missing_credentials (ak sk : String)
    (tr : HttpRequest → TransportResult) (ts n m url : String)
    (p : Option (List (String × JVal))) (h : ak = "" ∨ sk = "") :
    make_request ak sk tr ts n m url p =
      (JVal.obj [("error", JVal.s credsErrorMsg)], []) := by
  unfold make_request
  rw [if_pos h]

/-- C5 witness: the empty access key at a concrete call. -/
theorem C5_witness :
    (("" : String) = "" ∨ ("sk" : String) = "") ∧
    make_request "" "sk" (fun _ => TransportResult.exn "unreachable") "1" "n"
        "GET" "u" none =
      (JVal.obj [("error", JVal.s credsErrorMsg)], []) :=
  ⟨Or.inl rfl, C5_missing_credentials "" "sk" _ "1" "n" "GET" "u" none
    (Or.inl rfl)⟩

/-- C6: every error kind is returned as a value from `_make_request` (the
total function of the embedding — nothing escapes the `try`/`except`): the
configuration error, the unsupported-method error, the wrapped transport
exception, the wrapped 4xx/5xx HTTP error and the wrapped body-decoding
error all come back as an `error` dict, the input-validation error of an
empty serial number comes back as a message string, and no call is ever
retried (at most one request is issued). -/
theorem C6_errors_as_values (ak sk : String)
    (tr : HttpRequest → TransportResult) (ts n m url : String)
    (p : Option (List (String × JVal))) :
    (make_request ak sk tr ts n m url p).2.length ≤ 1 ∧
    ((ak = "" ∨ sk = "") → make_request ak sk tr ts n m url p =
      (JVal.obj [("error", JVal.s credsErrorMsg)], [])) ∧
    (ak ≠ "" → sk ≠ "" → m ≠ "GET" → m ≠ "PUT" → m ≠ "POST" →
      make_request ak sk tr ts n m url p =
        (JVal.obj [("error", JVal.s ("Unsupported HTTP method: " ++ m))], [])) ∧
    (∀ req msg, (make_request ak sk tr ts n m url p).2 = [req] →
      tr req = TransportResult.exn msg →
      (make_request ak sk tr ts n m url p).1 =
        JVal.obj [("error", JVal.s ("API request failed: " ++ msg))]) ∧
    (∀ req st rs body, (make_request ak sk tr ts n m url p).2 = [req] →
      tr req = TransportResult.response st rs body → 400 ≤ st → st < 600 →
      (make_request ak sk tr ts n m url p).1 =
        JVal.obj [("error", JVal.s ("API request failed: " ++
          http_error_msg st rs req.url))]) ∧
    (∀ req st rs msg, (make_request ak sk tr ts n m url p).2 = [req] →
      tr req = TransportResult.response st rs (Except.error msg) →
      ¬(400 ≤ st ∧ st < 600) →
      (make_request ak sk tr ts n m url p).1 =
        JVal.obj [("error", JVal.s ("API request failed: " ++ msg))]) ∧
    (∀ host, get_ecoflow_device_info host ak sk tr ts n "" =
      "Error: Serial number is required. Use list_ecoflow_devices to get device serial numbers.") := by
  have hg : ∀ host, get_ecoflow_device_info host ak sk tr ts n "" =
      "Error: Serial number is required. Use list_ecoflow_devices to get device serial numbers." := by
    intro host
    unfold get_ecoflow_device_info
    rw [if_pos rfl]
  rcases make_request_cases ak sk tr ts n m url p with
    ⟨hc, heq⟩ | ⟨hc, hm, heq⟩ | ⟨hc, hsupp, req0, hqm, hqu, heq⟩
  · refine ⟨by simp [heq], fun _ => heq, ?_, ?_, ?_, ?_, hg⟩
    · intro ha hb _ _ _
      rcases hc with hc | hc
      · exact absurd hc ha
      · exact absurd hc hb
    · intro req msg hcal _
      rw [heq] at hcal
      simp at hcal
    · intro req st rs body hcal _ _ _
      rw [heq] at hcal
      simp at hcal
    · intro req st rs msg hcal _ _
      rw [heq] at hcal
      simp at hcal
  · refine ⟨by simp [heq], fun hcc => absurd hcc hc, fun _ _ _ _ _ => heq,
      ?_, ?_, ?_, hg⟩
    · intro req msg hcal _
      rw [heq] at hcal
      simp at hcal
    · intro req st rs body hcal _ _ _
      rw [heq] at hcal
      simp at hcal
    · intro req st rs msg hcal _ _
      rw [heq] at hcal
      simp at hcal
  · refine ⟨by simp [heq, send_and_handle_calls], fun hcc => absurd hcc hc,
      ?_, ?_, ?_, ?_, hg⟩
    · intro _ _ h3 h4 h5
      rcases hsupp with h | h | h
      · exact absurd h h3
      · exact absurd h h4
      · exact absurd h h5
    · intro req msg hcal hmsg
      rw [heq] at hcal ⊢
      rw [send_and_handle_calls] at hcal
      simp only [List.cons.injEq, and_true] at hcal
      subst hcal
      exact sah_exn tr req0 msg hmsg
    · intro req st rs body hcal hresp h4 h6
      rw [heq] at hcal ⊢
      rw [send_and_handle_calls] at hcal
      simp only [List.cons.injEq, and_true] at hcal
      subst hcal
      exact sah_http tr req0 st rs body hresp h4 h6
    · intro req st rs msg hcal hresp hn
      rw [heq] at hcal ⊢
      rw [send_and_handle_calls] at hcal
      simp only [List.cons.injEq, and_true] at hcal
      subst hcal
      exact sah_json_err tr req0 st rs msg hresp hn

/-- C7 counterexample: with the (default) empty credentials, dispatching
the unsupported method `DELETE` returns the configuration error, whose
message does not name the method — so the claim, which quantifies over
every method string without assuming configured credentials, fails as
stated. -/
theorem C7_counterexample :
    (make_request "" "" (fun _ => TransportResult.exn "e") "1" "n" "DELETE" "u"
      none).1 = JVal.obj [("error", JVal.s credsErrorMsg)] ∧
    containsSub "DELETE".data credsErrorMsg.data = false := by
  constructor
  · unfold make_request
    rw [if_pos (Or.inl rfl)]
  · decide

/-- C7 (amended): with non-empty credentials, for every method string other
than `GET`, `PUT` and `POST` the dispatcher returns an error result that
names the unsupported method and issues zero network calls. -/
theorem C7_amended (ak sk : String) (tr : HttpRequest → TransportResult)
    (ts n m url : String) (p : Option (List (String × JVal)))
    (h1 : ak ≠ "") (h2 : sk ≠ "") (h3 : m ≠ "GET") (h4 : m ≠ "PUT")
    (h5 : m ≠ "POST") :
    make_request ak sk tr ts n m url p =
      (JVal.obj [("error", JVal.s ("Unsupported HTTP method: " ++ m))], []) ∧
    containsSub m.data ("Unsupported HTTP method: " ++ m).data = true := by
  constructor
  · unfold make_request
    rw [if_neg (not_or.mpr ⟨h1, h2⟩)]
    dsimp only
    rw [if_neg h3, if_neg h4, if_neg h5]
  · rw [String.data_append]
    exact containsSub_suffix _ _

/-- C7 witness: the amended statement at `DELETE` with configured
credentials. -/
theorem C7_amended_witness :
    (("A" : String) ≠ "" ∧ ("S" : String) ≠ "" ∧ ("DELETE" : String) ≠ "GET" ∧
      ("DELETE" : String) ≠ "PUT" ∧ ("DELETE" : String) ≠ "POST") ∧
    make_request "A" "S" (fun _ => TransportResult.exn "e") "1" "n" "DELETE"
        "u" none =
      (JVal.obj [("error", JVal.s ("Unsupported HTTP method: " ++ "DELETE"))],
        []) ∧
    containsSub "DELETE".data
      ("Unsupported HTTP method: " ++ "DELETE").data = true :=
  ⟨⟨by decide, by decide, by decide, by decide, by decide⟩,
   C7_amended "A" "S" _ "1" "n" "DELETE" "u" none (by decide) (by decide)
     (by decide) (by decide) (by decide)⟩

/-- C8: with valid credentials and a supported method, `_make_request`
issues exactly one HTTP call, to the given url, with the four auth headers
(access key, timestamp, nonce, signature) plus the JSON content-type
header; a GET carries no body even when a payload was supplied and signed,
while PUT and POST carry the payload as the JSON body. -/
theorem C8_dispatch (ak sk : String) (tr : HttpRequest → TransportResult)
    (ts n url : String) (p : Option (List (String × JVal))) (m : String)
    (h1 : ak ≠ "") (h2 : sk ≠ "")
    (h3 : m = "GET" ∨ m = "PUT" ∨ m = "POST") :
    (make_request ak sk tr ts n m url p).2 =
      [⟨m, url,
        [("accessKey", ak), ("timestamp", ts), ("nonce", n),
         ("sign", dictGetStr (create_signature ak sk ts n p) "sign"),
         ("Content-Type", "application/json;charset=UTF-8")],
        if m = "GET" then none else p⟩] := by
  have hauth1 : dictGetStr (create_signature ak sk ts n p) "accessKey" = ak := by
    simp [create_signature, dictGetStr, List.find?]
  have hauth2 : dictGetStr (create_signature ak sk ts n p) "timestamp" = ts := by
    simp [create_signature, dictGetStr, List.find?]
  have hauth3 : dictGetStr (create_signature ak sk ts n p) "nonce" = n := by
    simp [create_signature, dictGetStr, List.find?]
  have hcred : ¬(ak = "" ∨ sk = "") := not_or.mpr ⟨h1, h2⟩
  rcases h3 with rfl | rfl | rfl <;>
    simp [make_request, hcred, send_and_handle_calls, hauth1, hauth2, hauth3]

/-- C8 witness: a GET with a supplied payload issues one call with the five
headers and no body. -/
theorem C8_witness :
    (("A" : String) ≠ "" ∧ ("S" : String) ≠ "" ∧
      (("GET" : String) = "GET" ∨ ("GET" : String) = "PUT" ∨
        ("GET" : String) = "POST")) ∧
    (make_request "A" "S" (fun _ => TransportResult.exn "down") "1" "n2" "GET"
      "u" (some [("k", JVal.i 7)])).2 =
      [⟨"GET", "u",
        [("accessKey", "A"), ("timestamp", "1"), ("nonce", "n2"),
         ("sign", dictGetStr
           (create_signature "A" "S" "1" "n2" (some [("k", JVal.i 7)])) "sign"),
         ("Content-Type", "application/json;charset=UTF-8")],
        if ("GET" : String) = "GET" then none else some [("k", JVal.i 7)]⟩] :=
  ⟨⟨by decide, by decide, Or.inl rfl⟩,
   C8_dispatch "A" "S" _ "1" "n2" "u" (some [("k", JVal.i 7)]) "GET"
     (by decide) (by decide) (Or.inl rfl)⟩

/-- C9: canonicalization is not injective — the structurally distinct
payloads `{"a":{"b":1}}` and `{"a.b":1}` flatten to the same mapping, yield
the same canonical string, and with equal keys, timestamp and nonce they
produce the same signature. -/
theorem C9_not_injective :
    ([("a", JVal.obj [("b", JVal.i 1)])] : List (String × JVal)) ≠
      [("a.b", JVal.i 1)] ∧
    flatten_object [("a", JVal.obj [("b", JVal.i 1)])] "" =
      flatten_object [("a.b", JVal.i 1)] "" ∧
    build_data_string [("a", JVal.obj [("b", JVal.i 1)])] =
      build_data_string [("a.b", JVal.i 1)] ∧
    create_signature "AK" "SK" "1700000000000"
        "00000000-0000-4000-8000-000000000000"
        (some [("a", JVal.obj [("b", JVal.i 1)])]) =
      create_signature "AK" "SK" "1700000000000"
        "00000000-0000-4000-8000-000000000000"
        (some [("a.b", JVal.i 1)]) := by
  have hb : build_data_string [("a", JVal.obj [("b", JVal.i 1)])] =
      build_data_string [("a.b", JVal.i 1)] := by
    have h1 : build_data_string [("a", JVal.obj [("b", JVal.i 1)])] =
        "a.b=1" := by
      simp [build_data_string, flatten_object, flattenFields, flattenValue,
        flattenItems, dictUpdate, dictInsert, sortKeys, List.insertionSort,
        List.orderedInsert, dictGet, pyStr, joinSep]
      decide
    have h2 : build_data_string [("a.b", JVal.i 1)] = "a.b=1" := by
      simp [build_data_string, flatten_object, flattenFields, flattenValue,
        flattenItems, dictUpdate, dictInsert, sortKeys, List.insertionSort,
        List.orderedInsert, dictGet, pyStr, joinSep]
      decide
    exact h1.trans h2.symm
  refine ⟨by simp, ?_, hb, ?_⟩
  · have h1 : flatten_object [("a", JVal.obj [("b", JVal.i 1)])] "" =
        [("a.b", JVal.i 1)] := by
      simp [flatten_object, flattenFields, flattenValue, flattenItems,
        dictUpdate, dictInsert]
    have h2 : flatten_object [("a.b", JVal.i 1)] "" = [("a.b", JVal.i 1)] := by
      simp [flatten_object, flattenFields, flattenValue, flattenItems,
        dictUpdate, dictInsert]
    exact h1.trans h2.symm
  · simp only [create_signature, Option.getD_some]
    rw [hb]

/-- C10: when the HTTP layer succeeds (2xx) and the decoded JSON body is a
mapping with a top-level `error` key, both `list_ecoflow_devices` and
`get_ecoflow_device_info` report that `error` value as the failure message
instead of formatting a successful result. -/
theorem C10_success_error_body (host ak sk ts n serial : String)
    (tr : HttpRequest → TransportResult) (st : Nat) (rs : String)
    (fields : List (String × JVal))
    (h1 : ak ≠ "") (h2 : sk ≠ "") (hserial : serial ≠ "")
    (htr : ∀ q, tr q = TransportResult.response st rs
      (Except.ok (JVal.obj fields)))
    (hst1 : 200 ≤ st) (hst2 : st < 300)
    (herr : pyIn "error" (JVal.obj fields) = true) :
    list_ecoflow_devices host ak sk tr ts n =
      pyStr (pyGet (JVal.obj fields) "error") ∧
    get_ecoflow_device_info host ak sk tr ts n serial =
      pyStr (pyGet (JVal.obj fields) "error") := by
  have hnot : ¬(400 ≤ st ∧ st < 600) := by omega
  have hmr : ∀ url, (make_request ak sk tr ts n "GET" url none).1 =
      JVal.obj fields := by
    intro url
    rcases make_request_cases ak sk tr ts n "GET" url none with
      ⟨hc, _⟩ | ⟨_, hm, _⟩ | ⟨_, _, req0, _, _, heq⟩
    · exact absurd hc (not_or.mpr ⟨h1, h2⟩)
    · exact absurd rfl hm.1
    · rw [heq]
      exact sah_ok tr req0 st rs _ (htr req0) hnot
  constructor
  · unfold list_ecoflow_devices
    dsimp only
    rw [hmr]
    simp [herr]
  · unfold get_ecoflow_device_info
    rw [if_neg hserial]
    dsimp only
    rw [hmr]
    simp [herr]

/-- C10 witness: a 200 response whose body carries both an `error` message
and well-formed `data` still reports the error message from both
operations. -/
theorem C10_witness :
    (("A" : String) ≠ "" ∧ ("SN" : String) ≠ "" ∧
      pyIn "error"
        (JVal.obj [("error", JVal.s "boom"), ("data", JVal.arr [])]) = true) ∧
    list_ecoflow_devices "h" "A" "S"
      (fun _ => TransportResult.response 200 "OK"
        (Except.ok (JVal.obj [("error", JVal.s "boom"), ("data", JVal.arr [])])))
      "1" "n" =
      pyStr (pyGet
        (JVal.obj [("error", JVal.s "boom"), ("data", JVal.arr [])]) "error") ∧
    get_ecoflow_device_info "h" "A" "S"
      (fun _ => TransportResult.response 200 "OK"
        (Except.ok (JVal.obj [("error", JVal.s "boom"), ("data", JVal.arr [])])))
      "1" "n" "SN" =
      pyStr (pyGet
        (JVal.obj [("error", JVal.s "boom"), ("data", JVal.arr [])]) "error") :=
  ⟨⟨by decide, by decide, by decide⟩,
   C10_success_error_body "h" "A" "S" "1" "n" "SN"
     (fun _ => TransportResult.response 200 "OK"
       (Except.ok (JVal.obj [("error", JVal.s "boom"), ("data", JVal.arr [])])))
     200 "OK" [("error", JVal.s "boom"), ("data", JVal.arr [])]
     (by decide) (by decide) (by decide) (fun q => rfl) (by decide) (by decide)
     (by decide)⟩

end Ecoflow
